import Mathlib

/-
Verification of the warabi Provider (ProviderImpl.hpp) against its
natural-language specification.  The C++ under src/src/ProviderImpl.hpp is
shallowly embedded below: the target registry and the transfer-manager
registry become association lists, RPC handlers become pure functions over a
ProviderState together with oracle records standing for the external REMI
calls, factory callbacks and backend outcomes, and the locking/response
discipline of the handlers is captured by per-handler event traces that
mirror the C++ control flow statement by statement.
-/

namespace Warabi

/-! ### Association-list maps

std::unordered_map is modelled as an association list.  alookup is find,
ainsert is operator square-bracket assignment (replace or add), aerase is
erase. -/

def alookup {α β : Type} [DecidableEq α] : List (α × β) → α → Option β
  | [], _ => none
  | (k, v) :: r, k2 => if k2 = k then some v else alookup r k2

def ainsert {α β : Type} [DecidableEq α] (l : List (α × β)) (k : α) (v : β) :
    List (α × β) :=
  (k, v) :: l.filter (fun p => p.1 ≠ k)

def aerase {α β : Type} [DecidableEq α] (l : List (α × β)) (k : α) :
    List (α × β) :=
  l.filter (fun p => p.1 ≠ k)

/-! ### Flat JSON objects

nlohmann json objects carrying the target / transfer-manager configurations
are modelled as flat string-to-string association lists.  jupdate models
json::update (the keys of the second object overwrite the first); jget
models contains + get. -/

abbrev Jobj := List (String × String)

def jget (j : Jobj) (k : String) : Option String := alookup j k

def jupdate (a b : Jobj) : Jobj :=
  b.foldl (fun acc p => ainsert acc p.1 p.2) a

/-! ### Core data model -/

/-- A TransferManager instance (name is the map key; this is the value). -/
structure TMdata where
  ttype : String
  config : Jobj
  deriving DecidableEq, Repr

/-- A shared_ptr to a TransferManager; none models the null pointer that
operator square-bracket default-constructs for a missing key. -/
abbrev TMptr := Option TMdata

/-- Modelled from the spec: a region is a contiguous byte address space
whose length is fixed at creation (the Backend implementations such as the
memory backend are not under src/, only the Provider dispatch layer is). -/
structure RegionData where
  size : Nat
  bytes : List Nat
  deriving DecidableEq, Repr

/-- Modelled from the spec: a Backend target holds a collection of regions
keyed by backend-minted RegionIDs (here a counter). -/
structure Backend where
  btype : String
  bconfig : Jobj
  regions : List (Nat × RegionData)
  nextId : Nat
  deriving DecidableEq, Repr

/-- TargetEntry pairs the Backend with its bound TransferManager pointer and
the registered manager name (ProviderImpl.hpp, struct TargetEntry). -/
structure TargetEntry where
  target : Backend
  tm : TMptr
  tmName : String
  deriving DecidableEq, Repr

/-- The registries of ProviderImpl: m_targets and m_transfer_managers. -/
structure ProviderState where
  targets : List (Nat × TargetEntry)
  tms : List (String × TMptr)
  deriving DecidableEq, Repr

/-- C++ Result of T: success flag plus value or error string. -/
abbrev Res (α : Type) := Except String α

def resOk {α : Type} : Res α → Bool
  | .ok _ => true
  | .error _ => false

/-! ### Modelled backend region operations

Modelled from the spec: the concrete Backend implementations (memory, pmdk)
are not under src/; section 4.1 of the spec defines the region handle
operations.  A write copies caller bytes into the region at each
offset-size span in list order, consuming the buffer in order, and a write
past the declared length fails; a read copies region bytes out concatenated
in list order. -/

/-- Overwrite d starting at off with src (callers establish the bound
off + src.length <= d.length). -/
def setRange (d : List Nat) (off : Nat) (src : List Nat) : List Nat :=
  d.take off ++ src ++ d.drop (off + src.length)

/-- Modelled from the spec: region write over a span list; returns the new
byte content, or none for a write past the declared length. -/
def writeSpans (d : List Nat) : List (Nat × Nat) → List Nat → Option (List Nat)
  | [], _ => some d
  | (off, len) :: rest, buf =>
      if off + len ≤ d.length then
        match writeSpans (setRange d off (buf.take len)) rest (buf.drop len) with
        | some d2 => some d2
        | none => none
      else none

/-- Modelled from the spec: region read over a span list, concatenated in
list order; none for a span outside the region. -/
def readSpans (d : List Nat) : List (Nat × Nat) → Option (List Nat)
  | [] => some []
  | (off, len) :: rest =>
      if off + len ≤ d.length then
        match readSpans d rest with
        | some tl => some ((d.drop off).take len ++ tl)
        | none => none
      else none

/-- Modelled from the spec: Backend.create allocates a fresh region of the
given byte length, minting a fresh RegionID. -/
def backendCreate (b : Backend) (size : Nat) : Backend × Nat :=
  ({ b with
      regions := ainsert b.regions b.nextId ⟨size, List.replicate size 0⟩,
      nextId := b.nextId + 1 },
   b.nextId)

/-- Modelled from the spec: Backend.read returns a handle to an existing
region (none when absent; the Provider treats a null handle as not found). -/
def backendRead (b : Backend) (rid : Nat) : Option RegionData :=
  alookup b.regions rid

/-- Modelled from the spec: writing through a region handle; wOk is the
oracle outcome of the backend I/O itself (a BackendError is propagated
verbatim), the span bound check is computed. -/
def backendWriteRegion (b : Backend) (rid : Nat) (spans : List (Nat × Nat))
    (buf : List Nat) (wOk : Bool) : Res Unit × Backend :=
  match alookup b.regions rid with
  | none => (.error "region not found", b)
  | some rd =>
    if ¬ wOk then (.error "backend write error", b)
    else match writeSpans rd.bytes spans buf with
      | none => (.error "write past end of region", b)
      | some d2 =>
          (.ok (), { b with regions := ainsert b.regions rid ⟨rd.size, d2⟩ })

/-- Modelled from the spec: reading through a region handle. -/
def backendReadRegion (rd : RegionData) (spans : List (Nat × Nat))
    (rOk : Bool) : Res (List Nat) :=
  if ¬ rOk then .error "backend read error"
  else match readSpans rd.bytes spans with
    | none => .error "read past end of region"
    | some out => .ok out

/-- Modelled from the spec: Backend.erase removes the region, missing ID is
an error. -/
def backendErase (b : Backend) (rid : Nat) : Res Unit × Backend :=
  match alookup b.regions rid with
  | none => (.error "region not found", b)
  | some _ => (.ok (), { b with regions := aerase b.regions rid })

/-! ### Factory oracles

TargetFactory and TransferManagerFactory are process-wide registries whose
concrete entries are not under src/; they are oracles here.  The exception:
the built-in default transfer manager type is modelled from the spec. -/

structure Factories where
  validateTMConfig : String → Jobj → Res Unit
  createTM : String → Jobj → Res TMdata
  validateTargetConfig : String → Jobj → Res Unit
  createTarget : String → Jobj → Res Backend
  recoverTarget : String → Jobj → List String → Res Backend

/-- Modelled from the spec: a manager of type __default__ is auto-created
when the configuration omits it, so the library registers a __default__
TransferManager type whose creation succeeds; other types go through the
factory oracle. -/
def createTransferManager (f : Factories) (ttype : String) (config : Jobj) :
    Res TMdata :=
  if ttype = "__default__" then .ok ⟨ttype, config⟩
  else f.createTM ttype config

/-! ### Provider operations (ProviderImpl.hpp)

Each function mirrors one member function; shared_ptr aliasing of a
TargetEntry captured under the registry lock is modelled by updating the
registry in place. -/

/-- ProviderImpl::addTransferManager (json overload, lines 482-503):
duplicate-name check, then factory creation, then insertion. -/
def addTransferManager (st : ProviderState) (f : Factories)
    (name ttype : String) (config : Jobj) : Res Unit × ProviderState :=
  if (alookup st.tms name).isSome then
    (.error "a TransferManager with this name already exists", st)
  else match createTransferManager f ttype config with
    | .error e => (.error e, st)
    | .ok tm => (.ok (), { st with tms := ainsert st.tms name (some tm) })

/-- ProviderImpl::addTransferManager (string overload, lines 505-530):
parse the config string (parseOk is the parse outcome), validate through
the factory, then call the json overload. -/
def addTransferManagerStr (st : ProviderState) (f : Factories)
    (name ttype : String) (parseOk : Bool) (config : Jobj) :
    Res Unit × ProviderState :=
  if ¬ parseOk then (.error "could not parse configuration", st)
  else match f.validateTMConfig ttype config with
    | .error e => (.error e, st)
    | .ok _ => addTransferManager st f name ttype config

/-- ProviderImpl::addTarget (json overload, lines 354-387): create the
backend through the factory, then under both locks resolve the
transfer_manager name (default __default__) and insert; an unknown manager
name is an error and leaves the registry unchanged.  newId stands for
UUID::generate. -/
def addTarget (st : ProviderState) (f : Factories)
    (ttype : String) (config : Jobj) (newId : Nat) : Res Nat × ProviderState :=
  match f.createTarget ttype config with
  | .error e => (.error e, st)
  | .ok be =>
    let tmName := (jget config "transfer_manager").getD "__default__"
    match alookup st.tms tmName with
    | none => (.error "could not find the named transfer manager", st)
    | some tm =>
        (.ok newId,
         { st with targets := ainsert st.targets newId ⟨be, tm, tmName⟩ })

/-- ProviderImpl::addTarget (string overload, lines 389-413): parse,
validate through the factory, then the json overload. -/
def addTargetStr (st : ProviderState) (f : Factories)
    (ttype : String) (parseOk : Bool) (config : Jobj) (newId : Nat) :
    Res Nat × ProviderState :=
  if ¬ parseOk then (.error "could not parse configuration", st)
  else match f.validateTargetConfig ttype config with
    | .error e => (.error e, st)
    | .ok _ => addTarget st f ttype config newId

/-- ProviderImpl::removeTargetRPC (lines 429-451): erase from the registry
only, under the targets lock. -/
def removeTarget (st : ProviderState) (tid : Nat) : Res Unit × ProviderState :=
  match alookup st.targets tid with
  | none => (.error "target not found", st)
  | some _ => (.ok (), { st with targets := aerase st.targets tid })

/-- ProviderImpl::destroyTargetRPC (lines 453-474): call backend destroy
under the targets lock, then erase the entry regardless of the destroy
outcome (destroyOk is the backend oracle outcome). -/
def destroyTarget (st : ProviderState) (tid : Nat) (destroyOk : Bool) :
    Res Unit × ProviderState :=
  match alookup st.targets tid with
  | none => (.error "target not found", st)
  | some _ =>
      ((if destroyOk then .ok () else .error "backend destroy error"),
       { st with targets := aerase st.targets tid })

/-! ### Provider constructor (ProviderImpl::ProviderImpl, lines 229-319)

The declared configuration after parse and schema validation.  The
constructor is modelled with an event trace recording, per declared entry,
its factory validation calls and its factory instantiation call, so that
the first-pass-validation-before-second-pass-instantiation ordering is a
provable statement. -/

structure TMDecl where
  name : String
  ttype : String
  config : Jobj
  deriving DecidableEq, Repr

structure TgtDecl where
  ttype : String
  config : Jobj
  deriving DecidableEq, Repr

structure PConfig where
  transfer_managers : List TMDecl
  targets : List TgtDecl
  deriving DecidableEq, Repr

/-- Outcome of json::parse plus valijson schema validation of the incoming
configuration string. -/
inductive CfgInput
  | parseError
  | schemaError
  | valid (c : PConfig)

/-- Constructor events: factory validation and factory instantiation calls
for declared transfer managers and declared targets. -/
inductive CEv
  | valTM (d : TMDecl)
  | instTM (d : TMDecl)
  | valTgt (d : TgtDecl)
  | instTgt (d : TgtDecl)
  deriving DecidableEq, Repr

def isInstTM : CEv → Bool
  | CEv.instTM _ => true
  | _ => false

def isInstTgt : CEv → Bool
  | CEv.instTgt _ => true
  | _ => false

/-- First pass over declared transfer managers (lines 291-296): validate
each config through the factory, fail fast. -/
def tmPass1 (f : Factories) : List TMDecl → Res Unit × List CEv
  | [] => (.ok (), [])
  | d :: r =>
    match f.validateTMConfig d.ttype d.config with
    | .error e => (.error e, [CEv.valTM d])
    | .ok _ =>
        let (res, t) := tmPass1 f r
        (res, CEv.valTM d :: t)

/-- Events of one second-pass addTransferManager call (the string overload
re-validates, then the json overload checks for a duplicate name and calls
the factory constructor). -/
def tmStrEvents (f : Factories) (st : ProviderState) (d : TMDecl) : List CEv :=
  CEv.valTM d ::
    (match f.validateTMConfig d.ttype d.config with
     | .error _ => []
     | .ok _ => if (alookup st.tms d.name).isSome then [] else [CEv.instTM d])

/-- Second pass over declared transfer managers (lines 297-301): call
addTransferManager for each; the result is ignored by the constructor. -/
def tmPass2 (f : Factories) (st : ProviderState) :
    List TMDecl → ProviderState × List CEv
  | [] => (st, [])
  | d :: r =>
    let st1 := (addTransferManagerStr st f d.name d.ttype true d.config).2
    let (st2, t) := tmPass2 f st1 r
    (st2, tmStrEvents f st d ++ t)

/-- First pass over declared targets (lines 308-313): validate each config
through the factory, fail fast. -/
def tgtPass1 (f : Factories) : List TgtDecl → Res Unit × List CEv
  | [] => (.ok (), [])
  | d :: r =>
    match f.validateTargetConfig d.ttype d.config with
    | .error e => (.error e, [CEv.valTgt d])
    | .ok _ =>
        let (res, t) := tgtPass1 f r
        (res, CEv.valTgt d :: t)

/-- Events of one second-pass addTarget call (the string overload
re-validates, then the json overload calls the factory constructor). -/
def tgtStrEvents (f : Factories) (d : TgtDecl) : List CEv :=
  CEv.valTgt d ::
    (match f.validateTargetConfig d.ttype d.config with
     | .error _ => []
     | .ok _ => [CEv.instTgt d])

/-- Second pass over declared targets (lines 314-318): call addTarget for
each; the result is ignored by the constructor. -/
def tgtPass2 (f : Factories) (st : ProviderState) (nextId : Nat) :
    List TgtDecl → ProviderState × List CEv
  | [] => (st, [])
  | d :: r =>
    let st1 := (addTargetStr st f d.ttype true d.config nextId).2
    let (st2, t) := tgtPass2 f st1 (nextId + 1) r
    (st2, tgtStrEvents f d ++ t)

/-- ProviderImpl::ProviderImpl: parse, schema-validate, two passes over the
declared transfer managers, auto-add of the __default__ manager when
missing (lines 302-304), then two passes over the declared targets.  A
parse error, a schema error or a first-pass validation error throws (the
Except is the thrown exception); second-pass results are ignored. -/
def providerCtor (input : CfgInput) (f : Factories) :
    Res ProviderState × List CEv :=
  match input with
  | .parseError => (.error "could not parse warabi provider configuration", [])
  | .schemaError => (.error "invalid JSON configuration", [])
  | .valid c =>
    match tmPass1 f c.transfer_managers with
    | (.error e, t) => (.error e, t)
    | (.ok _, t1) =>
      let st0 : ProviderState := ⟨[], []⟩
      let (st1, t2) := tmPass2 f st0 c.transfer_managers
      let st2 := if (alookup st1.tms "__default__").isSome then st1
                 else (addTransferManager st1 f "__default__" "__default__" []).2
      match tgtPass1 f c.targets with
      | (.error e, t3) => (.error e, t1 ++ t2 ++ t3)
      | (.ok _, t3) =>
        let (st3, t4) := tgtPass2 f st2 0 c.targets
        (.ok st3, t1 ++ t2 ++ t3 ++ t4)

/-- e occurs in the trace strictly before the first event satisfying p. -/
def beforeFirst (t : List CEv) (e : CEv) (p : CEv → Bool) : Bool :=
  match t with
  | [] => false
  | x :: r => if x = e then true else if p x then false else beforeFirst r e p

/-! ### Data-plane RPC handlers -/

/-- ProviderImpl::createRPC (lines 652-667).  The modelled backend create
is total, so the create-failure branch of the handler is not reachable in
the model. -/
def createRPC (st : ProviderState) (tid : Nat) (size : Nat) :
    Res Nat × ProviderState :=
  match alookup st.targets tid with
  | none => (.error "target not found", st)
  | some e =>
    let (b2, rid) := backendCreate e.target size
    (.ok rid, { st with targets := ainsert st.targets tid { e with target := b2 } })

/-- ProviderImpl::writeEagerRPC (lines 693-711): find the target, obtain a
writable region handle, write the inlined buffer over the span list. -/
def writeEagerRPC (st : ProviderState) (tid rid : Nat)
    (spans : List (Nat × Nat)) (buf : List Nat) (wOk : Bool) :
    Res Unit × ProviderState :=
  match alookup st.targets tid with
  | none => (.error "target not found", st)
  | some e =>
    let (r, b2) := backendWriteRegion e.target rid spans buf wOk
    (r, { st with targets := ainsert st.targets tid { e with target := b2 } })

/-- ProviderImpl::readEagerRPC (lines 806-829): find the target, obtain a
read handle (a null handle is not-found), allocate the sum of the span
sizes and read the spans into it. -/
def readEagerRPC (st : ProviderState) (tid rid : Nat)
    (spans : List (Nat × Nat)) (rOk : Bool) : Res (List Nat) :=
  match alookup st.targets tid with
  | none => .error "target not found"
  | some e =>
    match backendRead e.target rid with
    | none => .error "region not found"
    | some rd => backendReadRegion rd spans rOk

/-- Oracle outcomes of the external calls a bulk-path handler makes:
engine.lookup of an explicit third-party address, and the transfer-manager
pull together with the bytes it delivers. -/
structure XferEnv where
  lookupOk : Bool
  pullOk : Bool
  pulled : List Nat

/-- ProviderImpl::createWriteRPC (lines 731-757): create the region, set
the result to its RegionID, then pull the remote data into span (0, size).
On pull failure the result becomes an error but the handler performs no
erase of the region.  When an explicit address fails to resolve,
engine.lookup throws and the scoped responder sends the current result. -/
def createWriteRPC (st : ProviderState) (tid : Nat) (addr : String)
    (size : Nat) (env : XferEnv) : Res Nat × ProviderState :=
  match alookup st.targets tid with
  | none => (.error "target not found", st)
  | some e =>
    let (b2, rid) := backendCreate e.target size
    let st2 := { st with targets := ainsert st.targets tid { e with target := b2 } }
    if addr ≠ "" ∧ ¬ env.lookupOk then (.ok rid, st2)
    else if ¬ env.pullOk then (.error "transfer manager pull failed", st2)
    else
      match backendWriteRegion b2 rid [(0, size)] env.pulled true with
      | (.ok _, b3) =>
          (.ok rid, { st with targets := ainsert st.targets tid { e with target := b3 } })
      | (.error er, _) => (.error er, st2)

/-- ProviderImpl::createWriteEagerRPC (lines 759-781): create a region of
the buffer size, set the result to its RegionID, then write the buffer at
span (0, size).  On write failure the result becomes an error but the
handler performs no erase of the region. -/
def createWriteEagerRPC (st : ProviderState) (tid : Nat) (buf : List Nat)
    (wOk : Bool) : Res Nat × ProviderState :=
  match alookup st.targets tid with
  | none => (.error "target not found", st)
  | some e =>
    let (b2, rid) := backendCreate e.target buf.length
    let st2 := { st with targets := ainsert st.targets tid { e with target := b2 } }
    match backendWriteRegion b2 rid [(0, buf.length)] buf wOk with
    | (.ok _, b3) =>
        (.ok rid, { st with targets := ainsert st.targets tid { e with target := b3 } })
    | (.error er, _) => (.error er, st2)

/-! ### Target migration, source side (ProviderImpl::migrateTargetRPC) -/

structure MigrationOptions where
  newRoot : String
  transferSize : Nat
  extraConfig : String
  removeSource : Bool

/-- Return codes of the external REMI calls issued by migrateTargetRPC, in
call order; 0 is REMI_SUCCESS.  registerRet aggregates the per-file
register calls (first nonzero code), metadataRet the four metadata
registrations. -/
structure RemiEnv where
  lookupOk : Bool
  phCreateRet : Int
  startMigrationOk : Bool
  filesetCreateRet : Int
  registerRet : Int
  metadataRet : Int
  xferSizeRet : Int
  migrateRet : Int
  migrateStatus : Int

/-- Observable outcome of migrateTargetRPC: the responded result, whether
the MigrationHandle was created, and whether cancel() was called on it. -/
structure MigrateOutcome where
  result : Res Unit
  handleCreated : Bool
  canceled : Bool

/-- ProviderImpl::migrateTargetRPC (lines 548-641), mirroring the control
flow statement by statement: address lookup, provider-handle creation,
FIND_TARGET, startMigration, fileset creation, file and metadata
registration, optional transfer size, remi_fileset_migrate, and the final
nonzero-status check, which is the only failure path that calls
mh->cancel(). -/
def migrateTargetRPC (st : ProviderState) (tid : Nat)
    (options : MigrationOptions) (env : RemiEnv) : MigrateOutcome :=
  if ¬ env.lookupOk then
    ⟨.error "failed to lookup destination address", false, false⟩
  else if env.phCreateRet ≠ 0 then
    ⟨.error "failed to create REMI provider handle", false, false⟩
  else match alookup st.targets tid with
  | none => ⟨.error "target not found", false, false⟩
  | some _ =>
    if ¬ env.startMigrationOk then
      ⟨.error "startMigration failed", false, false⟩
    else if env.filesetCreateRet ≠ 0 then
      ⟨.error "failed to create REMI fileset", true, false⟩
    else if env.registerRet ≠ 0 then
      ⟨.error "failed to register file in REMI fileset", true, false⟩
    else if env.metadataRet ≠ 0 then
      ⟨.error "failed to register metadata in REMI fileset", true, false⟩
    else if options.transferSize ≠ 0 ∧ env.xferSizeRet ≠ 0 then
      ⟨.error "failed to set transfer size for REMI fileset", true, false⟩
    else if env.migrateRet ≠ 0 then
      ⟨.error "REMI failed to migrate fileset", true, false⟩
    else if env.migrateStatus ≠ 0 then
      ⟨.error "migration failed with nonzero status", true, true⟩
    else ⟨.ok (), true, false⟩

/-- MigrationHandle destructor semantics (src/unnamed/part_000): on
destruction the migration commits and the source target is marked migrated
out, unless cancel() marked it as aborted. -/
def markedMigratedOut (o : MigrateOutcome) : Bool :=
  o.handleCreated && !o.canceled

/-! ### Target migration, destination side (the REMI callbacks) -/

/-- Metadata attached to the incoming fileset, already split into its four
fields; the configs are the parsed JSON objects. -/
structure MigMeta where
  uuid : Nat
  ttype : String
  config : Jobj
  migrationConfig : Jobj

/-- Return codes and data of the external REMI calls made by the
destination-side callbacks; metadataRet aggregates the four
remi_fileset_get_metadata calls, parseOk the two json::parse calls. -/
structure CbEnv where
  metadataRet : Int
  parseOk : Bool
  walkRet : Int
  rootRet : Int
  files : List String
  root : String

/-- ProviderImpl::beforeMigrationCallback (lines 842-886): check metadata,
parse and merge configs, then return 2 when a named transfer manager is
missing, 3 when the UUID already exists, 4 when the factory rejects the
merged config, 0 to accept. -/
def beforeMigrationCallback (st : ProviderState) (f : Factories)
    (m : MigMeta) (env : CbEnv) : Int :=
  if env.metadataRet ≠ 0 then env.metadataRet
  else if ¬ env.parseOk then 1
  else
    let merged := jupdate m.config m.migrationConfig
    let tmMissing : Bool :=
      match jget merged "transfer_manager" with
      | some tmName => (alookup st.tms tmName).isNone
      | none => false
    if tmMissing then 2
    else if (alookup st.targets m.uuid).isSome then 3
    else if ¬ resOk (f.validateTargetConfig m.ttype merged) then 4
    else 0

/-- Tail of afterMigrationCallback once the transfer manager is resolved:
fileset walkthrough, root fetch, filename joining, recoverTarget and the
installation of the new target under its UUID. -/
def afterMigrationInstall (st2 : ProviderState) (f : Factories)
    (m : MigMeta) (env : CbEnv) (tm : TMptr) (tmName : String) :
    Int × ProviderState :=
  if env.walkRet ≠ 0 then (2, st2)
  else if env.rootRet ≠ 0 then (3, st2)
  else
    let rootStr := if env.root = "" ∨ env.root.back ≠ '/'
                   then env.root ++ "/" else env.root
    let files := env.files.map (fun fn => rootStr ++ fn)
    match f.recoverTarget m.ttype (jupdate m.config m.migrationConfig) files with
    | .error _ => (4, st2)
    | .ok be =>
        (0, { st2 with targets := ainsert st2.targets m.uuid ⟨be, tm, tmName⟩ })

/-- ProviderImpl::afterMigrationCallback (lines 888-961): re-read metadata,
re-merge configs, resolve the transfer manager, then install through
afterMigrationInstall.  When the merged config names a transfer manager,
the find result is dereferenced with no end check: that undefined behavior
is the none outcome.  When no manager is named, operator square-bracket on
__default__ yields the stored pointer or inserts a null one. -/
def afterMigrationCallback (st : ProviderState) (f : Factories)
    (m : MigMeta) (env : CbEnv) : Option (Int × ProviderState) :=
  if env.metadataRet ≠ 0 then some (env.metadataRet, st)
  else if ¬ env.parseOk then some (1, st)
  else
    let merged := jupdate m.config m.migrationConfig
    match jget merged "transfer_manager" with
    | some tmName =>
      match alookup st.tms tmName with
      | none => none
      | some tm => some (afterMigrationInstall st f m env tm tmName)
    | none =>
      match alookup st.tms "__default__" with
      | some tm => some (afterMigrationInstall st f m env tm "__default__")
      | none =>
          some (afterMigrationInstall
                  { st with tms := ainsert st.tms "__default__" none }
                  f m env none "__default__")

/-! ### Handler event traces

For the locking and response disciplines, every RPC handler of
ProviderImpl.hpp is abstracted into the sequence of lock, registry,
backend, transfer-manager, external and respond events it performs, as a
function of the Booleans deciding its branches.  The AutoResponse object is
constructed before any early return, so its destructor appends the respond
event at the very end of every path, including paths where an exception
unwinds the body (an external lookup that throws). -/

inductive Ev
  | lockT    -- acquire m_targets_mtx
  | unlockT  -- release m_targets_mtx
  | lockTM   -- acquire m_transfer_managers_mtx
  | unlockTM -- release m_transfer_managers_mtx
  | mapOp    -- a lookup, insert or erase on a registry map
  | bCall    -- a Backend operation
  | tmCall   -- a TransferManager pull or push
  | factCall -- a factory validate or create call
  | extCall  -- a REMI or engine call
  | respond  -- req.respond issued by the AutoResponse destructor
  deriving DecidableEq, Repr

/-- True when the trace performs a Backend or TransferManager call while
the m_targets_mtx lock depth is positive. -/
def callUnderTargetsLockAux : List Ev → Nat → Bool
  | [], _ => false
  | Ev.lockT :: r, d => callUnderTargetsLockAux r (d + 1)
  | Ev.unlockT :: r, d => callUnderTargetsLockAux r (d - 1)
  | Ev.bCall :: r, d => decide (0 < d) || callUnderTargetsLockAux r d
  | Ev.tmCall :: r, d => decide (0 < d) || callUnderTargetsLockAux r d
  | _ :: r, d => callUnderTargetsLockAux r d

def callUnderTargetsLock (t : List Ev) : Bool :=
  callUnderTargetsLockAux t 0

def respondCount (t : List Ev) : Nat :=
  t.count Ev.respond

/-- The FIND_TARGET macro (lines 38-50): lock m_targets_mtx, look the UUID
up, copy the shared entry out, release at the end of the do-while block. -/
def findTargetEvs : List Ev := [Ev.lockT, Ev.mapOp, Ev.unlockT]

/-- addTargetRPC (lines 415-427) via addTarget (354-413): parse, factory
validation, factory creation, then under targets-then-managers locks a
manager lookup and (when found) the insertion. -/
def addTargetRPCevs (parseOk validOk createOk tmFound : Bool) : List Ev :=
  (if ¬ parseOk then []
   else Ev.factCall ::
     (if ¬ validOk then []
      else Ev.factCall ::
        (if ¬ createOk then []
         else [Ev.lockT, Ev.lockTM, Ev.mapOp] ++
              (if tmFound then [Ev.mapOp] else []) ++
              [Ev.unlockTM, Ev.unlockT])))
  ++ [Ev.respond]

/-- removeTargetRPC (lines 429-451): lookup and erase under the lock. -/
def removeTargetRPCevs (found : Bool) : List Ev :=
  [Ev.lockT, Ev.mapOp] ++ (if found then [Ev.mapOp] else []) ++
  [Ev.unlockT, Ev.respond]

/-- destroyTargetRPC (lines 453-474): lookup, backend destroy and erase,
all inside the lock_guard block on m_targets_mtx. -/
def destroyTargetRPCevs (found : Bool) : List Ev :=
  [Ev.lockT, Ev.mapOp] ++ (if found then [Ev.bCall, Ev.mapOp] else []) ++
  [Ev.unlockT, Ev.respond]

/-- addTransferManagerRPC (lines 532-546) via addTransferManager
(482-530): parse, factory validation, then under the managers lock the
duplicate check, factory creation and insertion. -/
def addTransferManagerRPCevs (parseOk validOk dup createOk : Bool) : List Ev :=
  (if ¬ parseOk then []
   else Ev.factCall ::
     (if ¬ validOk then []
      else [Ev.lockTM, Ev.mapOp] ++
           (if dup then []
            else Ev.factCall :: (if createOk then [Ev.mapOp] else [])) ++
           [Ev.unlockTM]))
  ++ [Ev.respond]

/-- migrateTargetRPC (lines 548-641): engine lookup, provider-handle
creation, FIND_TARGET, startMigration outside the lock, then the REMI
fileset calls (aggregated) and, on a nonzero migration status, the
mh->cancel() call. -/
def migrateTargetRPCevs (lookupOk phOk found startOk statusBad : Bool) :
    List Ev :=
  (if ¬ lookupOk then [Ev.extCall]
   else [Ev.extCall, Ev.extCall] ++
     (if ¬ phOk then []
      else findTargetEvs ++
        (if ¬ found then []
         else Ev.bCall ::
           (if ¬ startOk then []
            else Ev.extCall :: (if statusBad then [Ev.bCall] else [])))))
  ++ [Ev.respond]

/-- checkTargetRPC (lines 643-650): FIND_TARGET only; found and not-found
paths perform the same events. -/
def checkTargetRPCevs : List Ev := findTargetEvs ++ [Ev.respond]

/-- createRPC (lines 652-667): FIND_TARGET, backend create, region id. -/
def createRPCevs (found createOk : Bool) : List Ev :=
  findTargetEvs ++
  (if found then Ev.bCall :: (if createOk then [Ev.bCall] else []) else []) ++
  [Ev.respond]

/-- writeRPC (lines 669-691): FIND_TARGET, backend write handle, source
address resolution (an explicit address resolves through the engine and may
throw), transfer-manager pull. -/
def writeRPCevs (found writeOk addrEmpty lookupOk : Bool) : List Ev :=
  findTargetEvs ++
  (if found then
    Ev.bCall ::
      (if writeOk then
        (if addrEmpty then [Ev.tmCall]
         else if lookupOk then [Ev.extCall, Ev.tmCall] else [Ev.extCall])
       else [])
   else []) ++
  [Ev.respond]

/-- writeEagerRPC (lines 693-711): FIND_TARGET, backend write handle,
region write. -/
def writeEagerRPCevs (found writeOk : Bool) : List Ev :=
  findTargetEvs ++
  (if found then Ev.bCall :: (if writeOk then [Ev.bCall] else []) else []) ++
  [Ev.respond]

/-- persistRPC (lines 713-729): FIND_TARGET, backend write handle, region
persist. -/
def persistRPCevs (found writeOk : Bool) : List Ev :=
  findTargetEvs ++
  (if found then Ev.bCall :: (if writeOk then [Ev.bCall] else []) else []) ++
  [Ev.respond]

/-- createWriteRPC (lines 731-757): FIND_TARGET, backend create, region id,
source address resolution, transfer-manager pull. -/
def createWriteRPCevs (found createOk addrEmpty lookupOk : Bool) : List Ev :=
  findTargetEvs ++
  (if found then
    Ev.bCall ::
      (if createOk then
        Ev.bCall ::
          (if addrEmpty then [Ev.tmCall]
           else if lookupOk then [Ev.extCall, Ev.tmCall] else [Ev.extCall])
       else [])
   else []) ++
  [Ev.respond]

/-- createWriteEagerRPC (lines 759-781): FIND_TARGET, backend create,
region id, region write. -/
def createWriteEagerRPCevs (found createOk : Bool) : List Ev :=
  findTargetEvs ++
  (if found then
    Ev.bCall :: (if createOk then [Ev.bCall, Ev.bCall] else [])
   else []) ++
  [Ev.respond]

/-- readRPC (lines 783-804): FIND_TARGET, backend read handle, source
address resolution, transfer-manager push. -/
def readRPCevs (found readOk addrEmpty lookupOk : Bool) : List Ev :=
  findTargetEvs ++
  (if found then
    Ev.bCall ::
      (if readOk then
        (if addrEmpty then [Ev.tmCall]
         else if lookupOk then [Ev.extCall, Ev.tmCall] else [Ev.extCall])
       else [])
   else []) ++
  [Ev.respond]

/-- readEagerRPC (lines 806-829): FIND_TARGET, backend read handle, region
read into the response buffer. -/
def readEagerRPCevs (found readOk : Bool) : List Ev :=
  findTargetEvs ++
  (if found then Ev.bCall :: (if readOk then [Ev.bCall] else []) else []) ++
  [Ev.respond]

/-- eraseRPC (lines 831-840): FIND_TARGET, backend erase. -/
def eraseRPCevs (found : Bool) : List Ev :=
  findTargetEvs ++ (if found then [Ev.bCall] else []) ++ [Ev.respond]

/-! ### Derived invariants used by the claims -/

/-- Invariant 3 of the spec data model: every registered target is bound to
a transfer manager name that exists in the same Provider. -/
def boundManagersExist (st : ProviderState) : Prop :=
  ∀ p ∈ st.targets, (alookup st.tms p.2.tmName).isSome

/-! ## Theorems -/

/-! ### Association-list lemmas -/

theorem alookup_filter_ne {α β : Type} [DecidableEq α]
    (l : List (α × β)) (k k2 : α) (h : k2 ≠ k) :
    alookup (l.filter (fun p => p.1 ≠ k)) k2 = alookup l k2 := by
  induction l with
  | nil => rfl
  | cons p r ih =>
    obtain ⟨pk, pv⟩ := p
    by_cases hp : pk = k
    · subst hp
      have hstep : (((pk, pv) :: r).filter (fun p => p.1 ≠ pk)) =
          r.filter (fun p => p.1 ≠ pk) := by
        simp [List.filter_cons]
      have hrhs : alookup ((pk, pv) :: r) k2 =
          if k2 = pk then some pv else alookup r k2 := rfl
      rw [hstep, ih, hrhs, if_neg h]
    · have hstep : (((pk, pv) :: r).filter (fun p => p.1 ≠ k)) =
          (pk, pv) :: r.filter (fun p => p.1 ≠ k) := by
        simp [List.filter_cons, hp]
      have h1 : alookup ((pk, pv) :: r.filter (fun p => p.1 ≠ k)) k2 =
          if k2 = pk then some pv else alookup (r.filter (fun p => p.1 ≠ k)) k2 := rfl
      have h2 : alookup ((pk, pv) :: r) k2 =
          if k2 = pk then some pv else alookup r k2 := rfl
      rw [hstep, h1, h2, ih]

theorem alookup_ainsert_self {α β : Type} [DecidableEq α]
    (l : List (α × β)) (k : α) (v : β) :
    alookup (ainsert l k v) k = some v := by
  simp [ainsert, alookup]

theorem alookup_ainsert_ne {α β : Type} [DecidableEq α]
    (l : List (α × β)) (k k2 : α) (v : β) (h : k2 ≠ k) :
    alookup (ainsert l k v) k2 = alookup l k2 := by
  have he : alookup (ainsert l k v) k2 =
      if k2 = k then some v else alookup (l.filter (fun p => p.1 ≠ k)) k2 := rfl
  rw [he, if_neg h, alookup_filter_ne l k k2 h]

theorem alookup_aerase_ne {α β : Type} [DecidableEq α]
    (l : List (α × β)) (k k2 : α) (h : k2 ≠ k) :
    alookup (aerase l k) k2 = alookup l k2 :=
  alookup_filter_ne l k k2 h

theorem alookup_isSome_ainsert {α β : Type} [DecidableEq α]
    (l : List (α × β)) (k k2 : α) (v : β)
    (h : (alookup l k2).isSome) :
    (alookup (ainsert l k v) k2).isSome := by
  by_cases he : k2 = k
  · subst he; simp [alookup_ainsert_self]
  · rw [alookup_ainsert_ne l k k2 v he]; exact h

/-- Membership in an association list after ainsert: an entry of the new list
is either the inserted pair or an entry of the old list. -/
theorem mem_ainsert {α β : Type} [DecidableEq α]
    {l : List (α × β)} {k : α} {v : β} {p : α × β}
    (h : p ∈ ainsert l k v) : p = (k, v) ∨ p ∈ l := by
  simp only [ainsert, List.mem_cons, List.mem_filter] at h
  rcases h with h | h
  · exact Or.inl h
  · exact Or.inr h.1

theorem mem_aerase {α β : Type} [DecidableEq α]
    {l : List (α × β)} {k : α} {p : α × β}
    (h : p ∈ aerase l k) : p ∈ l := by
  simp only [aerase, List.mem_filter] at h
  exact h.1

/-! ### Sample provider state used for concrete evaluations -/

def sampleTM : TMdata := ⟨"__default__", []⟩

def sampleBackend : Backend := ⟨"memory", [], [], 0⟩

def sampleState : ProviderState :=
  ⟨[(7, ⟨sampleBackend, some sampleTM, "__default__"⟩)],
   [("__default__", some sampleTM)]⟩

def sampleOptions : MigrationOptions := ⟨"/tmp/x", 0, "", true⟩

/-- A factory oracle whose validations and creations all succeed. -/
def sampleFactories : Factories :=
  ⟨fun _ _ => .ok (), fun t c => .ok ⟨t, c⟩, fun _ _ => .ok (),
   fun t c => .ok ⟨t, c, [], 0⟩, fun t c _ => .ok ⟨t, c, [], 0⟩⟩

/-- A callback environment in which every REMI call succeeds. -/
def sampleCbEnv : CbEnv := ⟨0, true, 0, 0, [], "/tmp/r"⟩

/-- REMI environment in which everything up to and including startMigration
succeeds and then remi_fileset_create fails. -/
def envFilesetCreateFails : RemiEnv := ⟨true, 0, true, 1, 0, 0, 0, 0, 0⟩

/-- REMI environment in which remi_fileset_migrate itself returns a nonzero
code (a transfer-layer error). -/
def envMigrateCallFails : RemiEnv := ⟨true, 0, true, 0, 0, 0, 0, 1, 0⟩

/-! ### Claim C1 -/

/-- Claim C1 (code bug): the claim says that every source-side failure
after the MigrationHandle was created and before the transfer succeeded
makes migrateTargetRPC call cancel() on the handle, keeping the source
target live.  The code only calls mh->cancel() on the nonzero
migration-status path; on a fileset-creation failure and on a nonzero
return of remi_fileset_migrate itself, the HANDLE_REMI_ERROR macro returns
with an error result and no cancel, so the handle destructor commits and
the target is marked migrated out (src/unnamed/part_000 destructor
semantics).  This theorem evaluates both failing inputs. -/
theorem C1_migrate_failure_without_cancel :
    (migrateTargetRPC sampleState 7 sampleOptions envFilesetCreateFails).handleCreated = true ∧
    resOk (migrateTargetRPC sampleState 7 sampleOptions envFilesetCreateFails).result = false ∧
    (migrateTargetRPC sampleState 7 sampleOptions envFilesetCreateFails).canceled = false ∧
    markedMigratedOut (migrateTargetRPC sampleState 7 sampleOptions envFilesetCreateFails) = true ∧
    (migrateTargetRPC sampleState 7 sampleOptions envMigrateCallFails).handleCreated = true ∧
    resOk (migrateTargetRPC sampleState 7 sampleOptions envMigrateCallFails).result = false ∧
    (migrateTargetRPC sampleState 7 sampleOptions envMigrateCallFails).canceled = false ∧
    markedMigratedOut (migrateTargetRPC sampleState 7 sampleOptions envMigrateCallFails) = true := by
  decide

/-! ### Claim C2 -/

/-- Claim C2 counterexample: destroyTargetRPC performs the backend destroy
call while holding m_targets_mtx, so the claimed discipline fails for that
handler. -/
theorem C2_destroy_backend_call_under_lock :
    callUnderTargetsLock (destroyTargetRPCevs true) = true := by decide

/-- Claim C2 (amended): every RPC handler except destroyTargetRPC holds
m_targets_mtx only around registry lookup, insert or remove, and never
performs a Backend or TransferManager operation while holding it;
destroyTargetRPC is the exception, calling the backend destroy under the
lock. -/
theorem C2_lock_discipline_except_destroy :
    (∀ a b c d, callUnderTargetsLock (addTargetRPCevs a b c d) = false) ∧
    (∀ a, callUnderTargetsLock (removeTargetRPCevs a) = false) ∧
    (∀ a b c d, callUnderTargetsLock (addTransferManagerRPCevs a b c d) = false) ∧
    (∀ a b c d e, callUnderTargetsLock (migrateTargetRPCevs a b c d e) = false) ∧
    callUnderTargetsLock checkTargetRPCevs = false ∧
    (∀ a b, callUnderTargetsLock (createRPCevs a b) = false) ∧
    (∀ a b c d, callUnderTargetsLock (writeRPCevs a b c d) = false) ∧
    (∀ a b, callUnderTargetsLock (writeEagerRPCevs a b) = false) ∧
    (∀ a b, callUnderTargetsLock (persistRPCevs a b) = false) ∧
    (∀ a b c d, callUnderTargetsLock (createWriteRPCevs a b c d) = false) ∧
    (∀ a b, callUnderTargetsLock (createWriteEagerRPCevs a b) = false) ∧
    (∀ a b c d, callUnderTargetsLock (readRPCevs a b c d) = false) ∧
    (∀ a b, callUnderTargetsLock (readEagerRPCevs a b) = false) ∧
    (∀ a, callUnderTargetsLock (eraseRPCevs a) = false) := by
  decide

/-- Witness instantiating the amended C2 discipline theorem on concrete
branch choices. -/
theorem C2_lock_discipline_witness :
    callUnderTargetsLock (addTargetRPCevs true true true true) = false :=
  C2_lock_discipline_except_destroy.1 true true true true

/-! ### Claim C8 -/

/-- Claim C8: every RPC handler responds exactly once on every exit path,
including early returns on lookup failure and exceptional unwinding: the
AutoResponse responder constructed at the top of each handler triggers the
single respond event at its destruction, on every branch of every handler
trace. -/
theorem C8_respond_exactly_once :
    (∀ a b c d, respondCount (addTargetRPCevs a b c d) = 1) ∧
    (∀ a, respondCount (removeTargetRPCevs a) = 1) ∧
    (∀ a, respondCount (destroyTargetRPCevs a) = 1) ∧
    (∀ a b c d, respondCount (addTransferManagerRPCevs a b c d) = 1) ∧
    (∀ a b c d e, respondCount (migrateTargetRPCevs a b c d e) = 1) ∧
    respondCount checkTargetRPCevs = 1 ∧
    (∀ a b, respondCount (createRPCevs a b) = 1) ∧
    (∀ a b c d, respondCount (writeRPCevs a b c d) = 1) ∧
    (∀ a b, respondCount (writeEagerRPCevs a b) = 1) ∧
    (∀ a b, respondCount (persistRPCevs a b) = 1) ∧
    (∀ a b c d, respondCount (createWriteRPCevs a b c d) = 1) ∧
    (∀ a b, respondCount (createWriteEagerRPCevs a b) = 1) ∧
    (∀ a b c d, respondCount (readRPCevs a b c d) = 1) ∧
    (∀ a b, respondCount (readEagerRPCevs a b) = 1) ∧
    (∀ a, respondCount (eraseRPCevs a) = 1) := by
  decide

/-- Witness instantiating the C8 response theorem on concrete branch
choices (a not-found early return and an exception path). -/
theorem C8_respond_witness :
    respondCount (addTargetRPCevs false false false false) = 1 ∧
    respondCount (writeRPCevs true true false false) = 1 :=
  ⟨C8_respond_exactly_once.1 false false false false,
   (C8_respond_exactly_once.2.2.2.2.2.2.2.1) true true false false⟩

/-! ### Claim C6 -/

/-- Keys stay pairwise distinct under ainsert. -/
theorem nodup_keys_ainsert {α β : Type} [DecidableEq α]
    (l : List (α × β)) (k : α) (v : β)
    (h : (l.map Prod.fst).Nodup) : ((ainsert l k v).map Prod.fst).Nodup := by
  simp only [ainsert, List.map_cons, List.nodup_cons]
  refine ⟨?_, ?_⟩
  · intro hmem
    simp only [List.mem_map, List.mem_filter] at hmem
    obtain ⟨p, ⟨_, hpk⟩, hpe⟩ := hmem
    simp only [decide_eq_true_eq] at hpk
    exact hpk hpe
  · have hs : (l.filter (fun p => p.1 ≠ k)).Sublist l := List.filter_sublist l
    exact h.sublist (hs.map Prod.fst)

/-- Claim C6: a request to add a transfer manager under a name already
present fails with an error and leaves the manager map unchanged; and
every addTransferManager call keeps the manager names pairwise distinct,
so no two registered managers ever share a name. -/
theorem C6_tm_names_unique (st : ProviderState) (f : Factories)
    (name ttype : String) (parseOk : Bool) (config : Jobj)
    (h : (alookup st.tms name).isSome = true) :
    resOk (addTransferManagerStr st f name ttype parseOk config).1 = false ∧
    (addTransferManagerStr st f name ttype parseOk config).2 = st ∧
    (∀ st2 f2 n2 t2 p2 c2, (st2.tms.map Prod.fst).Nodup →
       (((addTransferManagerStr st2 f2 n2 t2 p2 c2).2).tms.map Prod.fst).Nodup) := by
  refine ⟨?_, ?_, ?_⟩
  · cases parseOk with
    | false => simp [addTransferManagerStr, resOk]
    | true =>
      simp only [addTransferManagerStr]
      cases hv : f.validateTMConfig ttype config with
      | error e => simp [resOk]
      | ok u => simp [addTransferManager, h, resOk]
  · cases parseOk with
    | false => simp [addTransferManagerStr]
    | true =>
      simp only [addTransferManagerStr]
      cases hv : f.validateTMConfig ttype config with
      | error e => simp
      | ok u => simp [addTransferManager, h]
  · intro st2 f2 n2 t2 p2 c2 hnd
    cases p2 with
    | false => simpa [addTransferManagerStr] using hnd
    | true =>
      simp only [addTransferManagerStr]
      cases hv : f2.validateTMConfig t2 c2 with
      | error e => simpa using hnd
      | ok u =>
        simp only [addTransferManager]
        by_cases hdup : (alookup st2.tms n2).isSome
        · simpa [hdup] using hnd
        · simp only [hdup, if_neg]
          cases hc : createTransferManager f2 t2 c2 with
          | error e => simpa [hdup] using hnd
          | ok tm => simpa [hdup] using nodup_keys_ainsert st2.tms n2 (some tm) hnd

/-- Witness for C6 at a concrete duplicate name. -/
theorem C6_tm_names_unique_witness :
    resOk (addTransferManagerStr sampleState sampleFactories
      "__default__" "memory" true []).1 = false :=
  (C6_tm_names_unique sampleState sampleFactories "__default__" "memory" true []
    (by decide)).1

/-! ### Claim C4 -/

/-- addTarget (json overload) fails and leaves the whole state unchanged
when the named transfer manager is unknown. -/
theorem addTarget_unknown_manager (st : ProviderState) (f : Factories)
    (ttype : String) (config : Jobj) (newId : Nat)
    (h : alookup st.tms ((jget config "transfer_manager").getD "__default__") = none) :
    resOk (addTarget st f ttype config newId).1 = false ∧
    (addTarget st f ttype config newId).2 = st := by
  simp only [addTarget]
  cases hc : f.createTarget ttype config with
  | error e => exact ⟨rfl, rfl⟩
  | ok be => simp [h, resOk]

/-- addTarget (json overload) preserves invariant 3: every registered
target is bound to an existing manager name. -/
theorem addTarget_preserves_bound (st : ProviderState) (f : Factories)
    (ttype : String) (config : Jobj) (newId : Nat)
    (h : boundManagersExist st) :
    boundManagersExist (addTarget st f ttype config newId).2 := by
  simp only [addTarget]
  cases hc : f.createTarget ttype config with
  | error e => exact h
  | ok be =>
    simp only []
    cases hl : alookup st.tms ((jget config "transfer_manager").getD "__default__") with
    | none => exact h
    | some tm =>
      intro p hp
      rcases mem_ainsert hp with hpe | hmem
      · subst hpe
        simpa using congrArg Option.isSome hl
      · exact h p hmem

theorem addTargetStr_preserves_bound (st : ProviderState) (f : Factories)
    (ttype : String) (parseOk : Bool) (config : Jobj) (newId : Nat)
    (h : boundManagersExist st) :
    boundManagersExist (addTargetStr st f ttype parseOk config newId).2 := by
  cases parseOk with
  | false => simpa [addTargetStr] using h
  | true =>
    simp only [addTargetStr]
    cases hv : f.validateTargetConfig ttype config with
    | error e => simpa using h
    | ok u => simpa using addTarget_preserves_bound st f ttype config newId h

/-- Claim C4: an add_target request whose config names a transfer manager
that is not registered returns an error and leaves the state (and in
particular the target map) unchanged; and every addTarget call preserves
the invariant that each registered target is bound to a manager that
exists in the same Provider. -/
theorem C4_add_target_manager_binding (st : ProviderState) (f : Factories)
    (ttype : String) (parseOk : Bool) (config : Jobj) (newId : Nat)
    (h : alookup st.tms ((jget config "transfer_manager").getD "__default__") = none) :
    resOk (addTargetStr st f ttype parseOk config newId).1 = false ∧
    (addTargetStr st f ttype parseOk config newId).2 = st ∧
    (∀ st2 f2 t2 p2 c2 n2, boundManagersExist st2 →
       boundManagersExist (addTargetStr st2 f2 t2 p2 c2 n2).2) := by
  refine ⟨?_, ?_, fun st2 f2 t2 p2 c2 n2 hb =>
    addTargetStr_preserves_bound st2 f2 t2 p2 c2 n2 hb⟩
  · cases parseOk with
    | false => simp [addTargetStr, resOk]
    | true =>
      simp only [addTargetStr]
      cases hv : f.validateTargetConfig ttype config with
      | error e => simp [resOk]
      | ok u => simpa using (addTarget_unknown_manager st f ttype config newId h).1
  · cases parseOk with
    | false => simp [addTargetStr]
    | true =>
      simp only [addTargetStr]
      cases hv : f.validateTargetConfig ttype config with
      | error e => simp
      | ok u => simpa using (addTarget_unknown_manager st f ttype config newId h).2

/-- Witness for C4: a config naming a manager that does not exist in the
sample state. -/
theorem C4_add_target_manager_binding_witness :
    resOk (addTargetStr sampleState sampleFactories
      "memory" true [("transfer_manager", "missing")] 3).1 = false :=
  (C4_add_target_manager_binding sampleState sampleFactories "memory" true
    [("transfer_manager", "missing")] 3 (by decide)).1

/-! ### Claim C5 -/

theorem addTarget_tms_eq (st : ProviderState) (f : Factories)
    (ttype : String) (config : Jobj) (newId : Nat) :
    ((addTarget st f ttype config newId).2).tms = st.tms := by
  simp only [addTarget]
  cases hc : f.createTarget ttype config with
  | error e => rfl
  | ok be =>
    simp only []
    cases hl : alookup st.tms ((jget config "transfer_manager").getD "__default__") with
    | none => rfl
    | some tm => rfl

theorem addTargetStr_tms_eq (st : ProviderState) (f : Factories)
    (ttype : String) (parseOk : Bool) (config : Jobj) (newId : Nat) :
    ((addTargetStr st f ttype parseOk config newId).2).tms = st.tms := by
  cases parseOk with
  | false => simp [addTargetStr]
  | true =>
    simp only [addTargetStr]
    cases hv : f.validateTargetConfig ttype config with
    | error e => simp
    | ok u => simpa using addTarget_tms_eq st f ttype config newId

theorem tgtPass2_tms_eq (f : Factories) (l : List TgtDecl) :
    ∀ (st : ProviderState) (n : Nat), ((tgtPass2 f st n l).1).tms = st.tms := by
  induction l with
  | nil => intro st n; rfl
  | cons d r ih =>
    intro st n
    simp only [tgtPass2]
    rw [ih]
    exact addTargetStr_tms_eq st f d.ttype true d.config n

/-- The auto-add step of the constructor (lines 302-304) leaves
__default__ present in the manager map. -/
theorem ctor_default_step (st : ProviderState) (f : Factories) :
    (alookup ((if (alookup st.tms "__default__").isSome then st
               else (addTransferManager st f "__default__" "__default__" []).2)).tms
      "__default__").isSome = true := by
  by_cases h : (alookup st.tms "__default__").isSome
  · simp [h]
  · simp only [h, if_false]
    simp only [addTransferManager, h, if_false, createTransferManager, if_pos rfl]
    simp [alookup_ainsert_self]

/-- Claim C5: after successful construction a transfer manager named
__default__ exists (auto-created with type __default__ when the
configuration does not declare one), and every modelled operation
preserves its presence, since none removes a transfer manager.  The
auto-created default relies on the spec-modelled built-in __default__
manager type. -/
theorem C5_default_manager_exists (input : CfgInput) (f : Factories)
    (st : ProviderState)
    (h : (providerCtor input f).1 = .ok st) :
    (alookup st.tms "__default__").isSome = true ∧
    (∀ st2 f2 n2 t2 p2 c2, (alookup st2.tms "__default__").isSome = true →
       (alookup ((addTransferManagerStr st2 f2 n2 t2 p2 c2).2).tms "__default__").isSome = true) ∧
    (∀ st2 f2 t2 p2 c2 id2,
       (alookup ((addTargetStr st2 f2 t2 p2 c2 id2).2).tms "__default__").isSome =
       (alookup st2.tms "__default__").isSome) ∧
    (∀ st2 id2, ((removeTarget st2 id2).2).tms = st2.tms) ∧
    (∀ st2 id2 dok, ((destroyTarget st2 id2 dok).2).tms = st2.tms) ∧
    (∀ st2 id2 sz, ((createRPC st2 id2 sz).2).tms = st2.tms) ∧
    (∀ st2 t2 r2 sp2 b2 w2, ((writeEagerRPC st2 t2 r2 sp2 b2 w2).2).tms = st2.tms) ∧
    (∀ st2 t2 a2 s2 e2, ((createWriteRPC st2 t2 a2 s2 e2).2).tms = st2.tms) ∧
    (∀ st2 t2 b2 w2, ((createWriteEagerRPC st2 t2 b2 w2).2).tms = st2.tms) ∧
    (∀ st2 f2 m2 e2 c2 stA, afterMigrationCallback st2 f2 m2 e2 = some (c2, stA) →
       (alookup st2.tms "__default__").isSome = true →
       (alookup stA.tms "__default__").isSome = true) := by
  refine ⟨?_, ?_, ?_, ?_, ?_, ?_, ?_, ?_, ?_, ?_⟩
  · -- the constructor part
    cases input with
    | parseError => simp [providerCtor] at h
    | schemaError => simp [providerCtor] at h
    | valid c =>
      simp only [providerCtor] at h
      rcases h1 : tmPass1 f c.transfer_managers with ⟨r1, t1⟩
      cases r1 with
      | error e => rw [h1] at h; simp at h
      | ok u =>
        rw [h1] at h
        simp only [] at h
        rcases h3 : tgtPass1 f c.targets with ⟨r3, t3⟩
        cases r3 with
        | error e => rw [h3] at h; simp at h
        | ok u3 =>
          rw [h3] at h
          simp only [Except.ok.injEq] at h
          subst h
          rw [tgtPass2_tms_eq]
          exact ctor_default_step _ f
  · intro st2 f2 n2 t2 p2 c2 hpre
    cases p2 with
    | false => simpa [addTransferManagerStr] using hpre
    | true =>
      simp only [addTransferManagerStr]
      cases hv : f2.validateTMConfig t2 c2 with
      | error e => simpa using hpre
      | ok u =>
        simp only [addTransferManager]
        by_cases hdup : (alookup st2.tms n2).isSome
        · simpa [hdup] using hpre
        · simp only [hdup, if_neg]
          cases hc : createTransferManager f2 t2 c2 with
          | error e => simpa [hdup] using hpre
          | ok tm =>
            simpa using alookup_isSome_ainsert st2.tms n2 "__default__" (some tm) hpre
  · intro st2 f2 t2 p2 c2 id2
    rw [addTargetStr_tms_eq]
  · intro st2 id2
    simp only [removeTarget]
    cases alookup st2.targets id2 with
    | none => rfl
    | some e => rfl
  · intro st2 id2 dok
    simp only [destroyTarget]
    cases alookup st2.targets id2 with
    | none => rfl
    | some e => rfl
  · intro st2 id2 sz
    simp only [createRPC]
    cases alookup st2.targets id2 with
    | none => rfl
    | some e => rfl
  · intro st2 t2 r2 sp2 b2 w2
    simp only [writeEagerRPC]
    cases alookup st2.targets t2 with
    | none => rfl
    | some e => rfl
  · intro st2 t2 a2 s2 e2
    simp only [createWriteRPC]
    cases alookup st2.targets t2 with
    | none => rfl
    | some e =>
      simp only []
      by_cases hl : a2 ≠ "" ∧ ¬ e2.lookupOk
      · simp [hl]
      · simp only [hl, if_neg, if_false]
        by_cases hp : e2.pullOk
        · simp only [hp]
          cases backendWriteRegion ((backendCreate e.target s2).1)
              ((backendCreate e.target s2).2) [(0, s2)] e2.pulled true with
          | mk wr b3 =>
            cases wr with
            | ok u => simp
            | error er => simp
        · simp [hp]
  · intro st2 t2 b2 w2
    simp only [createWriteEagerRPC]
    cases alookup st2.targets t2 with
    | none => rfl
    | some e =>
      simp only []
      cases backendWriteRegion ((backendCreate e.target b2.length).1)
          ((backendCreate e.target b2.length).2) [(0, b2.length)] b2 w2 with
      | mk wr b3 =>
        cases wr with
        | ok u => simp
        | error er => simp
  · intro st2 f2 m2 e2 c2 stA hsome hpre
    have hinstall : ∀ (stB : ProviderState) (tm : TMptr) (tmName : String),
        ((afterMigrationInstall stB f2 m2 e2 tm tmName).2).tms = stB.tms := by
      intro stB tm tmName
      simp only [afterMigrationInstall]
      by_cases hw : e2.walkRet ≠ 0
      · simp [hw]
      · simp only [hw, if_neg, if_false]
        by_cases hr : e2.rootRet ≠ 0
        · simp [hr]
        · simp only [hr, if_neg, if_false]
          cases f2.recoverTarget m2.ttype (jupdate m2.config m2.migrationConfig)
              (e2.files.map (fun fn =>
                (if e2.root = "" ∨ e2.root.back ≠ '/'
                 then e2.root ++ "/" else e2.root) ++ fn)) with
          | error e => simp
          | ok be => simp
    simp only [afterMigrationCallback] at hsome
    by_cases hm : e2.metadataRet ≠ 0
    · rw [if_pos hm, Option.some.injEq, Prod.mk.injEq] at hsome
      exact hsome.2 ▸ hpre
    · rw [if_neg hm] at hsome
      by_cases hp : e2.parseOk
      · rw [if_neg (not_not_intro hp)] at hsome
        split at hsome
        · split at hsome
          · exact absurd hsome (by simp)
          · rw [Option.some.injEq] at hsome
            have hA := congrArg Prod.snd hsome
            dsimp at hA
            rw [← hA, hinstall]
            exact hpre
        · split at hsome
          · rw [Option.some.injEq] at hsome
            have hA := congrArg Prod.snd hsome
            dsimp at hA
            rw [← hA, hinstall]
            exact hpre
          · rw [Option.some.injEq] at hsome
            have hA := congrArg Prod.snd hsome
            dsimp at hA
            rw [← hA, hinstall]
            simp [alookup_ainsert_self]
      · rw [if_pos hp, Option.some.injEq, Prod.mk.injEq] at hsome
        exact hsome.2 ▸ hpre

/-! ### Claim C3 -/

theorem tmPass1_ok_trace (f : Factories) :
    ∀ l : List TMDecl, resOk (tmPass1 f l).1 = true →
      (tmPass1 f l).2 = l.map CEv.valTM := by
  intro l
  induction l with
  | nil => intro _; rfl
  | cons d r ih =>
    intro h
    simp only [tmPass1] at h ⊢
    cases hv : f.validateTMConfig d.ttype d.config with
    | error e => rw [hv] at h; simp [resOk] at h
    | ok u =>
      rw [hv] at h
      have h2 : resOk (tmPass1 f r).1 = true := h
      have h3 := ih h2
      show CEv.valTM d :: (tmPass1 f r).2 = List.map CEv.valTM (d :: r)
      rw [h3, List.map_cons]

theorem tmPass1_error_of_mem (f : Factories) :
    ∀ (l : List TMDecl) (d : TMDecl), d ∈ l →
      resOk (f.validateTMConfig d.ttype d.config) = false →
      resOk (tmPass1 f l).1 = false := by
  intro l
  induction l with
  | nil => intro d hd; cases hd
  | cons d0 r ih =>
    intro d hd hv
    simp only [tmPass1]
    cases hv0 : f.validateTMConfig d0.ttype d0.config with
    | error e => simp [resOk]
    | ok u =>
      rcases List.mem_cons.mp hd with he | hmem
      · subst he; rw [hv0] at hv; simp [resOk] at hv
      · rcases hp : tmPass1 f r with ⟨res, t⟩
        simp only []
        have := ih d hmem hv
        rw [hp] at this
        exact this

theorem tgtPass1_ok_trace (f : Factories) :
    ∀ l : List TgtDecl, resOk (tgtPass1 f l).1 = true →
      (tgtPass1 f l).2 = l.map CEv.valTgt := by
  intro l
  induction l with
  | nil => intro _; rfl
  | cons d r ih =>
    intro h
    simp only [tgtPass1] at h ⊢
    cases hv : f.validateTargetConfig d.ttype d.config with
    | error e => rw [hv] at h; simp [resOk] at h
    | ok u =>
      rw [hv] at h
      have h2 : resOk (tgtPass1 f r).1 = true := h
      have h3 := ih h2
      show CEv.valTgt d :: (tgtPass1 f r).2 = List.map CEv.valTgt (d :: r)
      rw [h3, List.map_cons]

theorem tgtPass1_error_of_mem (f : Factories) :
    ∀ (l : List TgtDecl) (d : TgtDecl), d ∈ l →
      resOk (f.validateTargetConfig d.ttype d.config) = false →
      resOk (tgtPass1 f l).1 = false := by
  intro l
  induction l with
  | nil => intro d hd; cases hd
  | cons d0 r ih =>
    intro d hd hv
    simp only [tgtPass1]
    cases hv0 : f.validateTargetConfig d0.ttype d0.config with
    | error e => simp [resOk]
    | ok u =>
      rcases List.mem_cons.mp hd with he | hmem
      · subst he; rw [hv0] at hv; simp [resOk] at hv
      · rcases hp : tgtPass1 f r with ⟨res, t⟩
        simp only []
        have := ih d hmem hv
        rw [hp] at this
        exact this

theorem beforeFirst_append_of_mem (l1 l2 : List CEv) (e : CEv) (p : CEv → Bool)
    (hmem : e ∈ l1) (hp : ∀ x ∈ l1, p x = false) :
    beforeFirst (l1 ++ l2) e p = true := by
  induction l1 with
  | nil => cases hmem
  | cons x r ih =>
    rcases List.mem_cons.mp hmem with he | hmem2
    · subst he
      simp [beforeFirst]
    · by_cases hx : x = e
      · simp [List.cons_append, beforeFirst, hx]
      · have hpx := hp x (List.mem_cons_self x r)
        simp only [List.cons_append, beforeFirst, if_neg hx, hpx,
                   Bool.false_eq_true, if_false]
        exact ih hmem2 (fun y hy => hp y (List.mem_cons_of_mem x hy))

theorem beforeFirst_append_skip (l1 l2 : List CEv) (e : CEv) (p : CEv → Bool)
    (h : ∀ x ∈ l1, x ≠ e ∧ p x = false) :
    beforeFirst (l1 ++ l2) e p = beforeFirst l2 e p := by
  induction l1 with
  | nil => rfl
  | cons x r ih =>
    obtain ⟨hne, hpx⟩ := h x (List.mem_cons_self x r)
    simp only [List.cons_append, beforeFirst, if_neg hne, hpx,
               Bool.false_eq_true, if_false]
    exact ih (fun y hy => h y (List.mem_cons_of_mem x hy))

theorem tmPass2_events (f : Factories) :
    ∀ (l : List TMDecl) (st : ProviderState), ∀ x ∈ (tmPass2 f st l).2,
      (∃ d, x = CEv.valTM d) ∨ (∃ d, x = CEv.instTM d) := by
  intro l
  induction l with
  | nil => intro st x hx; cases hx
  | cons d r ih =>
    intro st x hx
    simp only [tmPass2] at hx
    rcases hp : tmPass2 f ((addTransferManagerStr st f d.name d.ttype true d.config).2) r
      with ⟨st2, t⟩
    rw [hp] at hx
    simp only [List.mem_append] at hx
    rcases hx with hx | hx
    · simp only [tmStrEvents, List.mem_cons] at hx
      rcases hx with he | hx
      · exact Or.inl ⟨d, he⟩
      · cases hv : f.validateTMConfig d.ttype d.config with
        | error e => rw [hv] at hx; cases hx
        | ok u =>
          rw [hv] at hx
          by_cases hdup : (alookup st.tms d.name).isSome
          · simp [hdup] at hx
          · simp [hdup] at hx
            exact Or.inr ⟨d, hx⟩
    · have := ih ((addTransferManagerStr st f d.name d.ttype true d.config).2) x
      rw [hp] at this
      exact this hx

/-- The constructor trace of a successful construction decomposes into the
transfer-manager validation pass, the transfer-manager second pass, the
target validation pass and the target second pass. -/
theorem providerCtor_trace_ok (c : PConfig) (f : Factories) (st : ProviderState)
    (h : (providerCtor (.valid c) f).1 = .ok st) :
    ∃ t2 t4, (providerCtor (.valid c) f).2 =
      ((c.transfer_managers.map CEv.valTM ++ t2) ++ c.targets.map CEv.valTgt) ++ t4 ∧
      (∀ x ∈ t2, (∃ d, x = CEv.valTM d) ∨ (∃ d, x = CEv.instTM d)) := by
  rcases h1 : tmPass1 f c.transfer_managers with ⟨r1, t1⟩
  cases r1 with
  | error e => simp [providerCtor, h1] at h
  | ok u =>
    rcases h2 : tmPass2 f ⟨[], []⟩ c.transfer_managers with ⟨st1, t2⟩
    rcases h3 : tgtPass1 f c.targets with ⟨r3, t3⟩
    cases r3 with
    | error e => simp [providerCtor, h1, h2, h3] at h
    | ok u3 =>
      refine ⟨t2, ((tgtPass2 f (if (alookup st1.tms "__default__").isSome then st1
          else (addTransferManager st1 f "__default__" "__default__" []).2) 0 c.targets).2),
        ?_, ?_⟩
      · have ht1 : t1 = c.transfer_managers.map CEv.valTM := by
          have := tmPass1_ok_trace f c.transfer_managers (by rw [h1]; rfl)
          rw [h1] at this
          exact this
        have ht3 : t3 = c.targets.map CEv.valTgt := by
          have := tgtPass1_ok_trace f c.targets (by rw [h3]; rfl)
          rw [h3] at this
          exact this
        simp only [providerCtor, h1, h2, h3]
        rw [ht1, ht3]
      · intro x hx
        have := tmPass2_events f c.transfer_managers ⟨[], []⟩ x
        rw [h2] at this
        exact this hx

/-- Claim C3: the Provider constructor throws (no Provider is created) on a
JSON parse failure, a schema validation failure, or a factory validation
failure of any declared transfer-manager or target config; and on a
successful construction, every declared transfer-manager config is
validated before any declared transfer manager is instantiated, and every
declared target config is validated before any declared target is
instantiated. -/
theorem C3_ctor_validation (f : Factories) (c : PConfig) :
    resOk (providerCtor .parseError f).1 = false ∧
    resOk (providerCtor .schemaError f).1 = false ∧
    ((∃ d ∈ c.transfer_managers, resOk (f.validateTMConfig d.ttype d.config) = false) →
        resOk (providerCtor (.valid c) f).1 = false) ∧
    ((∃ d ∈ c.targets, resOk (f.validateTargetConfig d.ttype d.config) = false) →
        resOk (providerCtor (.valid c) f).1 = false) ∧
    (∀ st, (providerCtor (.valid c) f).1 = .ok st →
       (∀ d ∈ c.transfer_managers,
          beforeFirst (providerCtor (.valid c) f).2 (CEv.valTM d) isInstTM = true) ∧
       (∀ d ∈ c.targets,
          beforeFirst (providerCtor (.valid c) f).2 (CEv.valTgt d) isInstTgt = true)) := by
  refine ⟨rfl, rfl, ?_, ?_, ?_⟩
  · rintro ⟨d, hd, hv⟩
    rcases h1 : tmPass1 f c.transfer_managers with ⟨r1, t1⟩
    cases r1 with
    | error e => simp [providerCtor, h1, resOk]
    | ok u =>
      exfalso
      have := tmPass1_error_of_mem f c.transfer_managers d hd hv
      rw [h1] at this
      simp [resOk] at this
  · rintro ⟨d, hd, hv⟩
    rcases h1 : tmPass1 f c.transfer_managers with ⟨r1, t1⟩
    cases r1 with
    | error e => simp [providerCtor, h1, resOk]
    | ok u =>
      rcases h3 : tgtPass1 f c.targets with ⟨r3, t3⟩
      cases r3 with
      | error e =>
        rcases h2 : tmPass2 f ⟨[], []⟩ c.transfer_managers with ⟨st1, t2⟩
        simp [providerCtor, h1, h2, h3, resOk]
      | ok u3 =>
        exfalso
        have := tgtPass1_error_of_mem f c.targets d hd hv
        rw [h3] at this
        simp [resOk] at this
  · intro st h
    obtain ⟨t2, t4, htr, ht2⟩ := providerCtor_trace_ok c f st h
    constructor
    · intro d hd
      rw [htr, List.append_assoc, List.append_assoc]
      exact beforeFirst_append_of_mem _ _ _ _
        (List.mem_map_of_mem CEv.valTM hd)
        (by rintro x hx
            obtain ⟨d0, _, rfl⟩ := List.mem_map.mp hx
            rfl)
    · intro d hd
      rw [htr, List.append_assoc]
      rw [beforeFirst_append_skip]
      · exact beforeFirst_append_of_mem _ _ _ _
          (List.mem_map_of_mem CEv.valTgt hd)
          (by rintro x hx
              obtain ⟨d0, _, rfl⟩ := List.mem_map.mp hx
              rfl)
      · intro x hx
        rcases List.mem_append.mp hx with hx | hx
        · obtain ⟨d0, _, rfl⟩ := List.mem_map.mp hx
          exact ⟨by simp, rfl⟩
        · rcases ht2 x hx with ⟨d0, rfl⟩ | ⟨d0, rfl⟩
          · exact ⟨by simp, rfl⟩
          · exact ⟨by simp, rfl⟩

/-- A factory oracle that rejects configs of the type named bad. -/
def rejectingFactories : Factories :=
  { sampleFactories with
      validateTMConfig := fun t _ => if t = "bad" then .error "invalid" else .ok (),
      validateTargetConfig := fun t _ => if t = "bad" then .error "invalid" else .ok () }

/-- Witness for C3: a declared transfer manager with a rejected config
makes construction fail, and on a successful construction with one
declared manager and one declared target the validation events precede the
instantiation events. -/
theorem C3_ctor_validation_witness :
    resOk (providerCtor (.valid ⟨[⟨"tm1", "bad", []⟩], []⟩) rejectingFactories).1 = false ∧
    beforeFirst (providerCtor
        (.valid ⟨[⟨"tm1", "__default__", []⟩], [⟨"memory", []⟩]⟩) sampleFactories).2
      (CEv.valTM ⟨"tm1", "__default__", []⟩) isInstTM = true :=
  ⟨(C3_ctor_validation rejectingFactories ⟨[⟨"tm1", "bad", []⟩], []⟩).2.2.1
      ⟨⟨"tm1", "bad", []⟩, by simp, by rfl⟩,
   (((C3_ctor_validation sampleFactories
        ⟨[⟨"tm1", "__default__", []⟩], [⟨"memory", []⟩]⟩).2.2.2.2 _ (by rfl)).1
      ⟨"tm1", "__default__", []⟩ (by simp))⟩

/-- Witness for C5: constructing a provider from the empty configuration
auto-creates the __default__ manager. -/
theorem C5_default_manager_exists_witness :
    (alookup (ProviderState.mk []
        [("__default__", some ⟨"__default__", []⟩)]).tms "__default__").isSome = true :=
  (C5_default_manager_exists (.valid ⟨[], []⟩) sampleFactories
      ⟨[], [("__default__", some ⟨"__default__", []⟩)]⟩ (by rfl)).1

/-! ### Claim C9 -/

/-- Claim C9: the after-migration callback dereferences the result of the
transfer-manager lookup without an end check (first conjunct: on a state
that lacks the named manager the model reaches the undefined-behavior
outcome none), and that branch is unreachable whenever the
before-migration callback accepted the same fileset on the same state,
because acceptance requires the named manager to exist (second part, for
every after-callback environment). -/
theorem C9_after_callback_deref (st : ProviderState) (f : Factories)
    (m : MigMeta) (envB envA : CbEnv)
    (h : beforeMigrationCallback st f m envB = 0) :
    afterMigrationCallback ⟨[], []⟩ sampleFactories
      ⟨9, "memory", [("transfer_manager", "tm0")], []⟩ sampleCbEnv = none ∧
    (afterMigrationCallback st f m envA).isSome = true := by
  refine ⟨by rfl, ?_⟩
  simp only [beforeMigrationCallback] at h
  by_cases hmB : envB.metadataRet ≠ 0
  · rw [if_pos hmB] at h; exact absurd h hmB
  · rw [if_neg hmB] at h
    by_cases hpB : envB.parseOk
    · rw [if_neg (not_not_intro hpB)] at h
      by_cases htm : (match jget (jupdate m.config m.migrationConfig) "transfer_manager" with
          | some tmName => (alookup st.tms tmName).isNone
          | none => false) = true
      · rw [if_pos htm] at h
        exact absurd h (by decide)
      · simp only [afterMigrationCallback]
        by_cases hmA : envA.metadataRet ≠ 0
        · rw [if_pos hmA]; rfl
        · rw [if_neg hmA]
          by_cases hpA : envA.parseOk
          · rw [if_neg (not_not_intro hpA)]
            rcases hg : jget (jupdate m.config m.migrationConfig) "transfer_manager"
              with _ | tmName
            · simp only [hg]
              rcases hd : alookup st.tms "__default__" with _ | tm
              · simp [hd]
              · simp [hd]
            · simp only [hg]
              rcases hl : alookup st.tms tmName with _ | tm
              · exfalso
                rw [hg] at htm
                simp [hl] at htm
              · simp [hl]
          · rw [if_pos hpA]; rfl
    · rw [if_pos hpB] at h
      exact absurd h (by decide)

/-- Witness for C9 at a state holding the named manager, where the before
callback accepts. -/
theorem C9_after_callback_deref_witness :
    (afterMigrationCallback sampleState sampleFactories
      ⟨9, "memory", [("transfer_manager", "__default__")], []⟩ sampleCbEnv).isSome = true :=
  (C9_after_callback_deref sampleState sampleFactories
      ⟨9, "memory", [("transfer_manager", "__default__")], []⟩
      sampleCbEnv sampleCbEnv (by rfl)).2

/-! ### Claim C10 -/

/-- Claim C10: when the bulk pull of create_write, or the eager write of
create_write_eager, fails after the region has been created, the handler
responds with an error result while the freshly created region stays
allocated in the target: there is no erase or rollback on the failure
path. -/
theorem C10_create_write_no_rollback (st : ProviderState) (tid : Nat)
    (e : TargetEntry) (size : Nat) (env : XferEnv) (buf : List Nat)
    (hfound : alookup st.targets tid = some e)
    (hpull : env.pullOk = false) :
    (resOk (createWriteRPC st tid "" size env).1 = false ∧
     ∃ e2, alookup ((createWriteRPC st tid "" size env).2).targets tid = some e2 ∧
       (alookup e2.target.regions e.target.nextId).isSome = true) ∧
    (resOk (createWriteEagerRPC st tid buf false).1 = false ∧
     ∃ e3, alookup ((createWriteEagerRPC st tid buf false).2).targets tid = some e3 ∧
       (alookup e3.target.regions e.target.nextId).isSome = true) := by
  constructor
  · constructor
    · simp [createWriteRPC, hfound, hpull, resOk]
    · refine ⟨{ e with target := (backendCreate e.target size).1 }, ?_, ?_⟩
      · simp [createWriteRPC, hfound, hpull, alookup_ainsert_self]
      · simp [backendCreate, alookup_ainsert_self]
  · constructor
    · simp only [createWriteEagerRPC, hfound]
      simp [backendWriteRegion, backendCreate, alookup_ainsert_self, resOk]
    · refine ⟨{ e with target := (backendCreate e.target buf.length).1 }, ?_, ?_⟩
      · simp only [createWriteEagerRPC, hfound]
        simp [backendWriteRegion, backendCreate, alookup_ainsert_self]
      · simp [backendCreate, alookup_ainsert_self]

/-- Witness for C10 on the sample state with a failing pull and a failing
eager write. -/
theorem C10_create_write_no_rollback_witness :
    resOk (createWriteRPC sampleState 7 "" 16 ⟨true, false, []⟩).1 = false :=
  ((C10_create_write_no_rollback sampleState 7
      ⟨sampleBackend, some sampleTM, "__default__"⟩ 16 ⟨true, false, []⟩ [1, 2]
      (by rfl) (by rfl)).1).1

/-! ### Claim C7 -/

/-- Reading the single span (0, S) from a fresh region of size S yields its
whole (zeroed) content. -/
theorem readSpans_full (S : Nat) :
    readSpans (List.replicate S 0) [(0, S)] = some (List.replicate S 0) := by
  simp [readSpans, List.take_replicate]

/-- Writing B over the span (0, B.length) of a zeroed region of size S
leaves B followed by the untouched zero suffix. -/
theorem writeSpans_prefix (S : Nat) (B : List Nat) (h : B.length ≤ S) :
    writeSpans (List.replicate S 0) [(0, B.length)] B =
      some (B ++ List.replicate (S - B.length) 0) := by
  have hc : 0 + B.length ≤ (List.replicate S (0 : Nat)).length := by
    simpa using h
  simp only [writeSpans, if_pos hc]
  simp [setRange, List.take_length, List.drop_replicate]

/-- Reading the span (0, B.length) back after the write returns B. -/
theorem readSpans_prefix (S : Nat) (B : List Nat) :
    readSpans (B ++ List.replicate (S - B.length) 0) [(0, B.length)] = some B := by
  have hc : 0 + B.length ≤ (B ++ List.replicate (S - B.length) (0 : Nat)).length := by
    simp
  simp only [readSpans, if_pos hc]
  simp [List.take_left]

/-- Claim C7: on any target, create(S) mints a fresh region whose
read_eager over the single span (0, S) returns exactly S bytes, and for
any byte string B with length at most S, write_eager of B over (0, len B)
followed by read_eager of (0, len B) returns B. -/
theorem C7_region_size_and_readback (st : ProviderState) (tid : Nat)
    (e : TargetEntry) (S : Nat) (B : List Nat)
    (hfound : alookup st.targets tid = some e)
    (hlen : B.length ≤ S) :
    (createRPC st tid S).1 = .ok e.target.nextId ∧
    readEagerRPC ((createRPC st tid S).2) tid e.target.nextId [(0, S)] true =
      .ok (List.replicate S 0) ∧
    (List.replicate S (0 : Nat)).length = S ∧
    (writeEagerRPC ((createRPC st tid S).2) tid e.target.nextId
        [(0, B.length)] B true).1 = .ok () ∧
    readEagerRPC ((writeEagerRPC ((createRPC st tid S).2) tid e.target.nextId
        [(0, B.length)] B true).2) tid e.target.nextId [(0, B.length)] true = .ok B := by
  refine ⟨?_, ?_, List.length_replicate S 0, ?_, ?_⟩
  · simp [createRPC, hfound, backendCreate]
  · simp [createRPC, hfound, backendCreate, readEagerRPC, backendRead,
          backendReadRegion, alookup_ainsert_self, readSpans_full]
  · simp [createRPC, hfound, backendCreate, writeEagerRPC, backendWriteRegion,
          alookup_ainsert_self, writeSpans_prefix S B hlen]
  · simp [createRPC, hfound, backendCreate, writeEagerRPC, backendWriteRegion,
          readEagerRPC, backendRead, backendReadRegion, alookup_ainsert_self,
          writeSpans_prefix S B hlen, readSpans_prefix S B]

/-- Witness for C7: a target of the sample state, a region of size 4 and
the payload byte string 1 2 3. -/
theorem C7_region_size_and_readback_witness :
    readEagerRPC ((writeEagerRPC ((createRPC sampleState 7 4).2) 7
        (sampleBackend.nextId) [(0, 3)] [1, 2, 3] true).2) 7
      sampleBackend.nextId [(0, 3)] true = .ok [1, 2, 3] := by
  have h := (C7_region_size_and_readback sampleState 7
      ⟨sampleBackend, some sampleTM, "__default__"⟩ 4 [1, 2, 3]
      (by rfl) (by decide)).2.2.2.2
  simpa using h

end Warabi
